import Mathlib

/-!
Shallow embedding of the go-odoo-connector package (`connector.go`,
`config.go`) and proofs about its externally observable behaviour.

Go's dynamically-typed `interface{}` values are embedded as the inductive
`Value`; the remote XML-RPC server is an oracle `Server` mapping an issued
call to either a transport error or a result value; endpoint establishment
(`xmlrpc.NewClient`) is an oracle `Dial`.  Each Go function is translated
into a Lean function that returns, besides its Go-style results, the trace
of remote calls (resp. dial attempts) it issued, so that claims about the
wire traffic are statable.  Go errors built with `fmt.Errorf` are embedded
structurally: `%w` wrapping becomes `GoError.wrap`, a plain message becomes
`GoError.base`.
-/

/-- Embedding of Go `interface{}` values as marshalled over XML-RPC:
strings, integers, booleans, null, sequences and string-keyed mappings. -/
inductive Value where
  | str : String → Value
  | int : Int → Value
  | bool : Bool → Value
  | null : Value
  | list : List Value → Value
  | vmap : List (String × Value) → Value

/-- A decoded Odoo record: `map[string]interface{}`. -/
abbrev Record := List (String × Value)

/-- Go errors built by `fmt.Errorf`: `base` is a plain message,
`wrap` is a message wrapping an underlying cause (the `%w` verb). -/
inductive GoError where
  | base : String → GoError
  | wrap : String → GoError → GoError
deriving DecidableEq, Repr

/-- The `http.Transport{}` configuration created in `NewConnector`;
its fields are all left at their defaults in the source, so the embedding
carries no fields. -/
structure Transport where
deriving DecidableEq, Repr

/-- A remote procedure call as issued through an `xmlrpc.Client` handle:
the client is identified by its endpoint URL. -/
structure RpcCall where
  client : String
  method : String
  args : List Value

/-- The remote server, as an oracle: a response (or transport error) for
every issued call. -/
def Server := RpcCall → Except GoError Value

/-- Endpoint establishment (`xmlrpc.NewClient(url, transport)`), as an
oracle: success or failure for every endpoint URL and transport. -/
def Dial := String → Transport → Except GoError Unit

/-- The `Connector` struct.  The two `xmlrpc.Client` handles are embedded
as the endpoint URLs they were created with. -/
structure Connector where
  URL : String
  Username : String
  APIKey : String
  DB : String
  UID : Int
  common : String
  models : String

/-- The `SearchReadOptions` struct; `Domain` is a nilable Go slice, so it
is embedded as an `Option` (`none` = nil). -/
structure SearchReadOptions where
  Fields : List String
  Domain : Option (List Value)
  Offset : Int
  Limit : Int
  Order : String

/-- The `Config` struct of config.go. -/
structure Config where
  URL : String
  Username : String
  APIKey : String
  DB : String
deriving DecidableEq, Repr

/-- Decoding a response value into Go `int` (or `int64`), as the xmlrpc
library does into an integer destination; anything else fails decoding. -/
def decodeInt : Value → Option Int
  | .int n => some n
  | _ => none

/-- Decoding a response value into Go `bool`. -/
def decodeBool : Value → Option Bool
  | .bool b => some b
  | _ => none

/-- Decoding a response value into one `map[string]interface{}` record. -/
def decodeRecord : Value → Option Record
  | .vmap m => some m
  | _ => none

/-- Decoding a response value into Go `[]map[string]interface{}`. -/
def decodeRecords : Value → Option (List Record)
  | .list vs => vs.mapM decodeRecord
  | _ => none

/-- `LoadConfig` of config.go.  File reading (`os.ReadFile`) and JSON
deserialisation (`json.Unmarshal` into `Config`, a missing field leaving
the zero value `""`) are oracles; the validation chain is translated
literally. -/
def LoadConfig (rd : String → Except GoError String)
    (unmarshal : String → Except GoError Config) (path : String) :
    Except GoError Config :=
  match rd path with
  | .error e => .error (.wrap "failed to read config file" e)
  | .ok data =>
  match unmarshal data with
  | .error e => .error (.wrap "failed to parse config file" e)
  | .ok config =>
  if config.URL = "" then .error (.base "URL is required in config")
  else if config.Username = "" then .error (.base "username is required in config")
  else if config.APIKey = "" then .error (.base "API key is required in config")
  else if config.DB = "" then .error (.base "database name is required in config")
  else .ok config

/-- `NewConnector` of connector.go.  Returns the trace of dial attempts
(endpoint URL and the transport passed), then the Go results
`(*Connector, error)` as `(Option Connector, Option GoError)`. -/
def NewConnector (dial : Dial) (srv : Server)
    (url username apiKey db : String) :
    List (String × Transport) × Option Connector × Option GoError :=
  let t : Transport := {}
  let commonUrl := url ++ "/xmlrpc/2/common"
  match dial commonUrl t with
  | .error e =>
      ([(commonUrl, t)], none, some (.wrap "failed to connect to common endpoint" e))
  | .ok _ =>
  let modelsUrl := url ++ "/xmlrpc/2/object"
  match dial modelsUrl t with
  | .error e =>
      ([(commonUrl, t), (modelsUrl, t)], none,
        some (.wrap "failed to connect to models endpoint" e))
  | .ok _ =>
  let dials := [(commonUrl, t), (modelsUrl, t)]
  match srv ⟨commonUrl, "authenticate",
      [.str db, .str username, .str apiKey, .vmap []]⟩ with
  | .error e => (dials, none, some (.wrap "authentication failed" e))
  | .ok v =>
  match decodeInt v with
  | none => (dials, none, some (.wrap "authentication failed" (.base "decode error")))
  | some uid =>
  if uid = 0 then (dials, none, some (.base "authentication failed: invalid credentials"))
  else (dials,
    some { URL := url, Username := username, APIKey := apiKey, DB := db,
           UID := uid, common := commonUrl, models := modelsUrl }, none)

/-- `NewConnectorFromConfig` of config.go: load the config, propagate its
error, otherwise construct the connector from the loaded fields. -/
def NewConnectorFromConfig (rd : String → Except GoError String)
    (unmarshal : String → Except GoError Config) (dial : Dial) (srv : Server)
    (configPath : String) :
    List (String × Transport) × Option Connector × Option GoError :=
  match LoadConfig rd unmarshal configPath with
  | .error e => ([], none, some e)
  | .ok config =>
      NewConnector dial srv config.URL config.Username config.APIKey config.DB

/-- `SearchReadRecords` of connector.go.  Returns the trace of remote
calls, the post-call connector (no field is assigned in the body), and the
Go results `([]map[string]interface{}, error)` (`none` = nil slice). -/
def SearchReadRecords (srv : Server) (c : Connector) (model : String)
    (opts : SearchReadOptions) :
    List RpcCall × Connector × Option (List Record) × Option GoError :=
  let domain : List Value := match opts.Domain with
    | none => []
    | some d => d
  let params : Value := .vmap
    [("fields", .list (opts.Fields.map .str)),
     ("offset", .int opts.Offset),
     ("limit", .int opts.Limit),
     ("order", .str opts.Order)]
  let call : RpcCall := ⟨c.models, "execute_kw",
    [.str c.DB, .int c.UID, .str c.APIKey,
     .str model, .str "search_read",
     .list [.list domain],
     params]⟩
  match srv call with
  | .error e =>
      ([call], c, none, some (.wrap ("search_read failed for model " ++ model) e))
  | .ok v =>
  match decodeRecords v with
  | none =>
      ([call], c, none,
        some (.wrap ("search_read failed for model " ++ model) (.base "decode error")))
  | some result => ([call], c, some result, none)

/-- `CreateRecord` of connector.go: Go results `(int64, error)`. -/
def CreateRecord (srv : Server) (c : Connector) (model : String)
    (values : Record) :
    List RpcCall × Connector × Int × Option GoError :=
  let call : RpcCall := ⟨c.models, "execute_kw",
    [.str c.DB, .int c.UID, .str c.APIKey,
     .str model, .str "create",
     .list [.vmap values]]⟩
  match srv call with
  | .error e =>
      ([call], c, 0, some (.wrap ("create failed for model " ++ model) e))
  | .ok v =>
  match decodeInt v with
  | none =>
      ([call], c, 0,
        some (.wrap ("create failed for model " ++ model) (.base "decode error")))
  | some id => ([call], c, id, none)

/-- `UpdateRecord` of connector.go: remote `"write"` with `[[id], values]`;
errors both on call failure (wrapping the cause) and on a `false` boolean
result (plain "no record updated" message). -/
def UpdateRecord (srv : Server) (c : Connector) (model : String) (id : Int)
    (values : Record) :
    List RpcCall × Connector × Option GoError :=
  let call : RpcCall := ⟨c.models, "execute_kw",
    [.str c.DB, .int c.UID, .str c.APIKey,
     .str model, .str "write",
     .list [.list [.int id], .vmap values]]⟩
  match srv call with
  | .error e =>
      ([call], c,
        some (.wrap ("update failed for model " ++ model ++ " with id " ++ toString id) e))
  | .ok v =>
  match decodeBool v with
  | none =>
      ([call], c,
        some (.wrap ("update failed for model " ++ model ++ " with id " ++ toString id)
          (.base "decode error")))
  | some result =>
  if !result then
    ([call], c,
      some (.base ("update failed for model " ++ model ++ " with id " ++ toString id
        ++ ": no record updated")))
  else ([call], c, none)

/-- `DeleteRecord` of connector.go: remote `"unlink"` with `[[id]]`; same
dual failure shape as `UpdateRecord`. -/
def DeleteRecord (srv : Server) (c : Connector) (model : String) (id : Int) :
    List RpcCall × Connector × Option GoError :=
  let call : RpcCall := ⟨c.models, "execute_kw",
    [.str c.DB, .int c.UID, .str c.APIKey,
     .str model, .str "unlink",
     .list [.list [.int id]]]⟩
  match srv call with
  | .error e =>
      ([call], c,
        some (.wrap ("delete failed for model " ++ model ++ " with id " ++ toString id) e))
  | .ok v =>
  match decodeBool v with
  | none =>
      ([call], c,
        some (.wrap ("delete failed for model " ++ model ++ " with id " ++ toString id)
          (.base "decode error")))
  | some result =>
  if !result then
    ([call], c,
      some (.base ("delete failed for model " ++ model ++ " with id " ++ toString id
        ++ ": no record deleted")))
  else ([call], c, none)

/-- `ExecuteMethod` of connector.go: Go results `(interface{}, error)`;
`kwargs` is a nilable map, appended to the argument list only when
non-nil. -/
def ExecuteMethod (srv : Server) (c : Connector) (model method : String)
    (args : List Value) (kwargs : Option (List (String × Value))) :
    List RpcCall × Connector × Option Value × Option GoError :=
  let callArgs : List Value :=
    [.str c.DB, .int c.UID, .str c.APIKey,
     .str model, .str method,
     .list args]
  let callArgs : List Value := match kwargs with
    | none => callArgs
    | some kw => callArgs ++ [.vmap kw]
  let call : RpcCall := ⟨c.models, "execute_kw", callArgs⟩
  match srv call with
  | .error e =>
      ([call], c, none,
        some (.wrap ("method execution failed for " ++ model ++ "." ++ method) e))
  | .ok v => ([call], c, some v, none)

/-- A dial oracle for which every endpoint can be established. -/
def dialOk : Dial := fun _ _ => .ok ()

/-- A dial oracle for which every endpoint establishment is refused. -/
def dialRefused : Dial := fun _ _ => .error (.base "connection refused")

/-- A stub server answering every call with the integer 7. -/
def srv7 : Server := fun _ => .ok (.int 7)

/-- A stub server answering every call with the integer 0. -/
def srvZero : Server := fun _ => .ok (.int 0)

/-- A stub server answering every call with the integer -1. -/
def srvNeg : Server := fun _ => .ok (.int (-1))

/-- A stub server failing every call with a transport error. -/
def srvBoom : Server := fun _ => .error (.base "boom")

/-- A stub server answering every call with boolean true. -/
def srvTrue : Server := fun _ => .ok (.bool true)

/-- A stub server answering every call with boolean false. -/
def srvFalse : Server := fun _ => .ok (.bool false)

/-- A stub server answering every call with a one-record list. -/
def srvOneRecord : Server :=
  fun _ => .ok (.list [.vmap [("id", .int 1), ("name", .str "A")]])

/-- A concrete connector as produced by a successful authentication
against base URL "http://x" with session identifier 7. -/
def cX : Connector :=
  { URL := "http://x", Username := "u", APIKey := "k", DB := "d", UID := 7,
    common := "http://x/xmlrpc/2/common", models := "http://x/xmlrpc/2/object" }

/-- Concrete search criteria: two fields, nil domain, limit 10. -/
def optsX : SearchReadOptions :=
  { Fields := ["id", "name"], Domain := none, Offset := 0, Limit := 10,
    Order := "create_date desc" }

/-- A file-read oracle returning a fixed payload for every path. -/
def rdOk : String → Except GoError String := fun _ => .ok "payload"

/-- An unmarshal oracle producing a fully populated config. -/
def umFull : String → Except GoError Config :=
  fun _ => .ok { URL := "http://x", Username := "u", APIKey := "k", DB := "d" }

/-- An unmarshal oracle producing a config whose username is empty. -/
def umNoUser : String → Except GoError Config :=
  fun _ => .ok { URL := "http://x", Username := "", APIKey := "k", DB := "d" }

/-- Definition following the specification text for
`newConnectorFromConfig(path)`: compose the configuration loader with the
connector constructor, propagating either's error unchanged and passing
the loaded url, username, api_key and db fields through. -/
def newConnectorFromConfigSpec (rd : String → Except GoError String)
    (unmarshal : String → Except GoError Config) (dial : Dial) (srv : Server)
    (configPath : String) :
    List (String × Transport) × Option Connector × Option GoError :=
  match LoadConfig rd unmarshal configPath with
  | .error e => ([], none, some e)
  | .ok config =>
      NewConnector dial srv config.URL config.Username config.APIKey config.DB

/-- C1: for every model and options, `SearchReadRecords` issues exactly one
remote call named "execute_kw" whose positional arguments are
(DB, UID, APIKey, model, "search_read", [Domain]) followed by the
parameter map (fields, offset, limit, order), and on success returns the
decoded record sequence exactly as the server returned it, with no
client-side filtering, reordering or coercion. -/
theorem searchReadRecords_marshalling_and_passthrough
    (srv : Server) (c : Connector) (model : String) (opts : SearchReadOptions)
    (call : RpcCall)
    (hcall : call = ⟨c.models, "execute_kw",
      [.str c.DB, .int c.UID, .str c.APIKey,
       .str model, .str "search_read",
       .list [.list (opts.Domain.getD [])],
       .vmap [("fields", .list (opts.Fields.map .str)),
              ("offset", .int opts.Offset),
              ("limit", .int opts.Limit),
              ("order", .str opts.Order)]]⟩) :
    (SearchReadRecords srv c model opts).1 = [call] ∧
    (∀ v rs, srv call = .ok v → decodeRecords v = some rs →
      SearchReadRecords srv c model opts = ([call], c, some rs, none)) := by
  subst hcall
  obtain ⟨fields, dom, off, lim, ord⟩ := opts
  cases dom <;>
  · constructor
    · simp only [SearchReadRecords]
      repeat' split
      all_goals rfl
    · intro v rs hv hrs
      simp only [Option.getD] at hv
      simp only [SearchReadRecords, hv, hrs]
      rfl

/-- C1 witness: against a stub server returning one record, a concrete
search over "crm.lead" issues the expected single call and returns the
record unmodified. -/
theorem searchReadRecords_marshalling_and_passthrough_witness :
    (SearchReadRecords srvOneRecord cX "crm.lead" optsX).1 =
      [⟨"http://x/xmlrpc/2/object", "execute_kw",
        [.str "d", .int 7, .str "k",
         .str "crm.lead", .str "search_read",
         .list [.list []],
         .vmap [("fields", .list [.str "id", .str "name"]),
                ("offset", .int 0),
                ("limit", .int 10),
                ("order", .str "create_date desc")]]⟩] ∧
    SearchReadRecords srvOneRecord cX "crm.lead" optsX =
      ([⟨"http://x/xmlrpc/2/object", "execute_kw",
        [.str "d", .int 7, .str "k",
         .str "crm.lead", .str "search_read",
         .list [.list []],
         .vmap [("fields", .list [.str "id", .str "name"]),
                ("offset", .int 0),
                ("limit", .int 10),
                ("order", .str "create_date desc")]]⟩],
       cX, some [[("id", .int 1), ("name", .str "A")]], none) :=
  ⟨(searchReadRecords_marshalling_and_passthrough srvOneRecord cX "crm.lead" optsX _ rfl).1,
   (searchReadRecords_marshalling_and_passthrough srvOneRecord cX "crm.lead" optsX _ rfl).2
     (.list [.vmap [("id", .int 1), ("name", .str "A")]])
     [[("id", .int 1), ("name", .str "A")]] rfl rfl⟩

/-- C3: a nil domain is marshalled identically to an explicit empty domain
sequence; the whole observable behaviour of `SearchReadRecords` agrees. -/
theorem searchReadRecords_nil_domain_eq_empty_domain
    (srv : Server) (c : Connector) (model : String) (fields : List String)
    (offset limit : Int) (order : String) :
    SearchReadRecords srv c model
      { Fields := fields, Domain := none, Offset := offset,
        Limit := limit, Order := order } =
    SearchReadRecords srv c model
      { Fields := fields, Domain := some [], Offset := offset,
        Limit := limit, Order := order } := rfl

/-- C6: `ExecuteMethod` with nil kwargs sends exactly the six positional
elements (DB, UID, APIKey, model, method, args); with non-nil kwargs (even
an empty map) it sends seven, the kwargs map appended last, so the nil
argument list is exactly one element shorter. -/
theorem executeMethod_kwargs_arity
    (srv : Server) (c : Connector) (model method : String)
    (args : List Value) (kw : List (String × Value)) :
    (ExecuteMethod srv c model method args none).1 =
      [⟨c.models, "execute_kw",
        [.str c.DB, .int c.UID, .str c.APIKey,
         .str model, .str method, .list args]⟩] ∧
    (ExecuteMethod srv c model method args (some kw)).1 =
      [⟨c.models, "execute_kw",
        [.str c.DB, .int c.UID, .str c.APIKey,
         .str model, .str method, .list args, .vmap kw]⟩] ∧
    ((ExecuteMethod srv c model method args none).1.map
      fun r => r.args.length) = [6] ∧
    ((ExecuteMethod srv c model method args (some kw)).1.map
      fun r => r.args.length) = [7] := by
  refine ⟨?_, ?_, ?_, ?_⟩ <;>
  · simp only [ExecuteMethod]
    repeat' split
    all_goals rfl

/-- C9: every record operation returns the connector it was given with
every field unchanged, whether the remote call succeeds or fails. -/
theorem operations_preserve_connector
    (srv : Server) (c : Connector) (model method : String)
    (opts : SearchReadOptions) (values : Record) (id : Int)
    (args : List Value) (kwargs : Option (List (String × Value))) :
    (SearchReadRecords srv c model opts).2.1 = c ∧
    (CreateRecord srv c model values).2.1 = c ∧
    (UpdateRecord srv c model id values).2.1 = c ∧
    (DeleteRecord srv c model id).2.1 = c ∧
    (ExecuteMethod srv c model method args kwargs).2.1 = c := by
  refine ⟨?_, ?_, ?_, ?_, ?_⟩ <;>
  · simp only [SearchReadRecords, CreateRecord, UpdateRecord, DeleteRecord,
      ExecuteMethod]
    repeat' split
    all_goals rfl

/-- C10: whenever a record operation returns a non-nil error, the
accompanying result is the zero value of its type: record id 0 for
`CreateRecord`, a nil record slice for `SearchReadRecords`, a nil result
for `ExecuteMethod`. -/
theorem operations_zero_value_on_error
    (srv : Server) (c : Connector) (model method : String)
    (opts : SearchReadOptions) (values : Record)
    (args : List Value) (kwargs : Option (List (String × Value))) :
    ((CreateRecord srv c model values).2.2.2 ≠ none →
      (CreateRecord srv c model values).2.2.1 = 0) ∧
    ((SearchReadRecords srv c model opts).2.2.2 ≠ none →
      (SearchReadRecords srv c model opts).2.2.1 = none) ∧
    ((ExecuteMethod srv c model method args kwargs).2.2.2 ≠ none →
      (ExecuteMethod srv c model method args kwargs).2.2.1 = none) := by
  refine ⟨?_, ?_, ?_⟩ <;>
  · simp only [CreateRecord, SearchReadRecords, ExecuteMethod]
    repeat' split
    all_goals simp

/-- C10 witness: against a stub server failing every call with a transport
error, the three operations return their zero values. -/
theorem operations_zero_value_on_error_witness :
    (CreateRecord srvBoom cX "crm.lead" []).2.2.1 = 0 ∧
    (SearchReadRecords srvBoom cX "crm.lead" optsX).2.2.1 = none ∧
    (ExecuteMethod srvBoom cX "crm.lead" "foo" [] none).2.2.1 = none :=
  ⟨(operations_zero_value_on_error srvBoom cX "crm.lead" "foo" optsX [] [] none).1
      (by decide),
   (operations_zero_value_on_error srvBoom cX "crm.lead" "foo" optsX [] [] none).2.1
      (by decide),
   (operations_zero_value_on_error srvBoom cX "crm.lead" "foo" optsX [] [] none).2.2
      (by decide)⟩

/-- C2 counterexample: a stub authenticate call returning -1 makes
`NewConnector` succeed, storing the non-positive session identifier -1, so
a successful construction does not guarantee a positive UID. -/
theorem newConnector_uid_not_positive_counterexample :
    (NewConnector dialOk srvNeg "http://x" "u" "k" "d").2.1.map Connector.UID =
      some (-1) ∧
    (NewConnector dialOk srvNeg "http://x" "u" "k" "d").2.2 = none ∧
    ¬ (0 : Int) < -1 :=
  ⟨rfl, rfl, by decide⟩

/-- C2 (amended): every successful construction stores a nonzero UID, and
when the authenticate call returns 0 the construction fails with the
invalid-credentials authentication error instead of returning a
connector. -/
theorem newConnector_nonzero_uid
    (dial : Dial) (srv : Server) (url username apiKey db : String) :
    (∀ co, (NewConnector dial srv url username apiKey db).2.1 = some co →
      co.UID ≠ 0) ∧
    (dial (url ++ "/xmlrpc/2/common") ⟨⟩ = .ok () →
     dial (url ++ "/xmlrpc/2/object") ⟨⟩ = .ok () →
     srv ⟨url ++ "/xmlrpc/2/common", "authenticate",
       [.str db, .str username, .str apiKey, .vmap []]⟩ = .ok (.int 0) →
     NewConnector dial srv url username apiKey db =
       ([(url ++ "/xmlrpc/2/common", ⟨⟩), (url ++ "/xmlrpc/2/object", ⟨⟩)],
        none, some (.base "authentication failed: invalid credentials"))) := by
  constructor
  · intro co h
    simp only [NewConnector] at h
    repeat' split at h
    all_goals simp at h
    subst h
    simp_all
  · intro h1 h2 h3
    simp only [NewConnector, h1, h2, h3, decodeInt]
    simp

/-- C2 witness: against a stub returning session 7 construction succeeds
with a nonzero UID, and against a stub returning 0 it fails with the
invalid-credentials error. -/
theorem newConnector_nonzero_uid_witness :
    cX.UID ≠ 0 ∧
    NewConnector dialOk srvZero "http://x" "u" "k" "d" =
      ([("http://x/xmlrpc/2/common", ⟨⟩), ("http://x/xmlrpc/2/object", ⟨⟩)],
       none, some (.base "authentication failed: invalid credentials")) :=
  ⟨(newConnector_nonzero_uid dialOk srv7 "http://x" "u" "k" "d").1 cX rfl,
   (newConnector_nonzero_uid dialOk srvZero "http://x" "u" "k" "d").2 rfl rfl rfl⟩

/-- C8: `NewConnector` dials exactly the two endpoints obtained by
appending "/xmlrpc/2/common" and "/xmlrpc/2/object" to the base URL, both
with the same transport configuration, stores them as the session and data
client handles, and fails with a connection error when either dial
fails. -/
theorem newConnector_two_endpoints
    (dial : Dial) (srv : Server) (url username apiKey db : String) :
    (∀ co, (NewConnector dial srv url username apiKey db).2.1 = some co →
      co.common = url ++ "/xmlrpc/2/common" ∧
      co.models = url ++ "/xmlrpc/2/object" ∧
      (NewConnector dial srv url username apiKey db).1 =
        [(url ++ "/xmlrpc/2/common", ⟨⟩), (url ++ "/xmlrpc/2/object", ⟨⟩)]) ∧
    (∀ e, dial (url ++ "/xmlrpc/2/common") ⟨⟩ = .error e →
      NewConnector dial srv url username apiKey db =
        ([(url ++ "/xmlrpc/2/common", ⟨⟩)], none,
         some (.wrap "failed to connect to common endpoint" e))) ∧
    (∀ e, dial (url ++ "/xmlrpc/2/common") ⟨⟩ = .ok () →
      dial (url ++ "/xmlrpc/2/object") ⟨⟩ = .error e →
      NewConnector dial srv url username apiKey db =
        ([(url ++ "/xmlrpc/2/common", ⟨⟩), (url ++ "/xmlrpc/2/object", ⟨⟩)],
         none, some (.wrap "failed to connect to models endpoint" e))) := by
  refine ⟨?_, ?_, ?_⟩
  · intro co h
    simp only [NewConnector] at h ⊢
    repeat' split at h
    all_goals simp at h
    subst h
    simp_all
  · intro e he
    simp only [NewConnector, he]
  · intro e h1 h2
    simp only [NewConnector, h1, h2]

/-- C8 witness: with every dial succeeding and a stub session, the
constructed connector stores both suffixed endpoints; with every dial
refused, construction fails with the common-endpoint connection error. -/
theorem newConnector_two_endpoints_witness :
    (cX.common = "http://x/xmlrpc/2/common" ∧
     cX.models = "http://x/xmlrpc/2/object" ∧
     (NewConnector dialOk srv7 "http://x" "u" "k" "d").1 =
       [("http://x/xmlrpc/2/common", ⟨⟩), ("http://x/xmlrpc/2/object", ⟨⟩)]) ∧
    NewConnector dialRefused srv7 "http://x" "u" "k" "d" =
      ([("http://x/xmlrpc/2/common", ⟨⟩)], none,
       some (.wrap "failed to connect to common endpoint"
         (.base "connection refused"))) :=
  ⟨(newConnector_two_endpoints dialOk srv7 "http://x" "u" "k" "d").1 cX rfl,
   (newConnector_two_endpoints dialRefused srv7 "http://x" "u" "k" "d").2.1
     (.base "connection refused") rfl⟩

/-- C4: `UpdateRecord` fails exactly when the remote "write" call fails or
its boolean result is false, the two failures being structurally distinct
(a wrapped transport cause versus the plain "no record updated" message),
and returns nil only when the call succeeds with true; `DeleteRecord` has
the same dual failure semantics for "unlink". -/
theorem updateRecord_deleteRecord_dual_failure
    (srv : Server) (c : Connector) (model : String) (id : Int)
    (values : Record) (w d : RpcCall)
    (hw : w = ⟨c.models, "execute_kw",
      [.str c.DB, .int c.UID, .str c.APIKey, .str model, .str "write",
       .list [.list [.int id], .vmap values]]⟩)
    (hd : d = ⟨c.models, "execute_kw",
      [.str c.DB, .int c.UID, .str c.APIKey, .str model, .str "unlink",
       .list [.list [.int id]]]⟩) :
    (∀ e, srv w = .error e → UpdateRecord srv c model id values =
      ([w], c, some (.wrap ("update failed for model " ++ model
        ++ " with id " ++ toString id) e))) ∧
    (srv w = .ok (.bool false) → UpdateRecord srv c model id values =
      ([w], c, some (.base ("update failed for model " ++ model
        ++ " with id " ++ toString id ++ ": no record updated")))) ∧
    ((UpdateRecord srv c model id values).2.2 = none ↔
      srv w = .ok (.bool true)) ∧
    (∀ e, GoError.wrap ("update failed for model " ++ model ++ " with id "
        ++ toString id) e ≠ .base ("update failed for model " ++ model
        ++ " with id " ++ toString id ++ ": no record updated")) ∧
    (∀ e, srv d = .error e → DeleteRecord srv c model id =
      ([d], c, some (.wrap ("delete failed for model " ++ model
        ++ " with id " ++ toString id) e))) ∧
    (srv d = .ok (.bool false) → DeleteRecord srv c model id =
      ([d], c, some (.base ("delete failed for model " ++ model
        ++ " with id " ++ toString id ++ ": no record deleted")))) ∧
    ((DeleteRecord srv c model id).2.2 = none ↔
      srv d = .ok (.bool true)) ∧
    (∀ e, GoError.wrap ("delete failed for model " ++ model ++ " with id "
        ++ toString id) e ≠ .base ("delete failed for model " ++ model
        ++ " with id " ++ toString id ++ ": no record deleted")) := by
  subst hw
  subst hd
  refine ⟨?_, ?_, ?_, ?_, ?_, ?_, ?_, ?_⟩
  · intro e he
    simp only [UpdateRecord, he]
  · intro he
    simp only [UpdateRecord, he, decodeBool]
    simp
  · simp only [UpdateRecord]
    rcases hs : srv ⟨c.models, "execute_kw",
      [.str c.DB, .int c.UID, .str c.APIKey, .str model, .str "write",
       .list [.list [.int id], .vmap values]]⟩ with e | v
    · simp
    · cases v <;> simp [decodeBool]
      rename_i b
      cases b <;> simp
  · intro e h
    exact GoError.noConfusion h
  · intro e he
    simp only [DeleteRecord, he]
  · intro he
    simp only [DeleteRecord, he, decodeBool]
    simp
  · simp only [DeleteRecord]
    rcases hs : srv ⟨c.models, "execute_kw",
      [.str c.DB, .int c.UID, .str c.APIKey, .str model, .str "unlink",
       .list [.list [.int id]]]⟩ with e | v
    · simp
    · cases v <;> simp [decodeBool]
      rename_i b
      cases b <;> simp
  · intro e h
    exact GoError.noConfusion h

/-- C4 witness: a stub answering false makes a concrete update fail with
the "no record updated" logical error, a stub failing transport makes a
concrete delete fail with the wrapped transport error, and a stub
answering true makes a concrete delete succeed. -/
theorem updateRecord_deleteRecord_dual_failure_witness :
    UpdateRecord srvFalse cX "crm.lead" 5 [] =
      ([⟨"http://x/xmlrpc/2/object", "execute_kw",
        [.str "d", .int 7, .str "k", .str "crm.lead", .str "write",
         .list [.list [.int 5], .vmap []]]⟩], cX,
       some (.base "update failed for model crm.lead with id 5: no record updated")) ∧
    DeleteRecord srvBoom cX "crm.lead" 5 =
      ([⟨"http://x/xmlrpc/2/object", "execute_kw",
        [.str "d", .int 7, .str "k", .str "crm.lead", .str "unlink",
         .list [.list [.int 5]]]⟩], cX,
       some (.wrap "delete failed for model crm.lead with id 5" (.base "boom"))) ∧
    (DeleteRecord srvTrue cX "crm.lead" 5).2.2 = none :=
  ⟨(updateRecord_deleteRecord_dual_failure srvFalse cX "crm.lead" 5 [] _ _
      rfl rfl).2.1 rfl,
   (updateRecord_deleteRecord_dual_failure srvBoom cX "crm.lead" 5 [] _ _
      rfl rfl).2.2.2.2.1 (.base "boom") rfl,
   (updateRecord_deleteRecord_dual_failure srvTrue cX "crm.lead" 5 [] _ _
      rfl rfl).2.2.2.2.2.2.1.mpr rfl⟩

/-- C5: for a readable, parseable config file, `LoadConfig` returns the
parsed config unchanged when all four fields are non-empty, and otherwise
fails with the validation error naming the first empty field in the fixed
check order url, username, api_key, db. -/
theorem loadConfig_validation
    (rd : String → Except GoError String)
    (unmarshal : String → Except GoError Config)
    (path data : String) (cfg : Config)
    (hr : rd path = .ok data) (hu : unmarshal data = .ok cfg) :
    (cfg.URL ≠ "" → cfg.Username ≠ "" → cfg.APIKey ≠ "" → cfg.DB ≠ "" →
      LoadConfig rd unmarshal path = .ok cfg) ∧
    (cfg.URL = "" →
      LoadConfig rd unmarshal path =
        .error (.base "URL is required in config")) ∧
    (cfg.URL ≠ "" → cfg.Username = "" →
      LoadConfig rd unmarshal path =
        .error (.base "username is required in config")) ∧
    (cfg.URL ≠ "" → cfg.Username ≠ "" → cfg.APIKey = "" →
      LoadConfig rd unmarshal path =
        .error (.base "API key is required in config")) ∧
    (cfg.URL ≠ "" → cfg.Username ≠ "" → cfg.APIKey ≠ "" → cfg.DB = "" →
      LoadConfig rd unmarshal path =
        .error (.base "database name is required in config")) := by
  refine ⟨?_, ?_, ?_, ?_, ?_⟩ <;> intros <;> simp_all [LoadConfig]

/-- C5 witness: a fully populated parsed config is returned unchanged; a
config whose username is empty fails with the username validation
error. -/
theorem loadConfig_validation_witness :
    LoadConfig rdOk umFull "config.json" =
      .ok { URL := "http://x", Username := "u", APIKey := "k", DB := "d" } ∧
    LoadConfig rdOk umNoUser "config.json" =
      .error (.base "username is required in config") :=
  ⟨(loadConfig_validation rdOk umFull "config.json" "payload" _ rfl rfl).1
      (by decide) (by decide) (by decide) (by decide),
   (loadConfig_validation rdOk umNoUser "config.json" "payload" _ rfl rfl).2.2.1
      (by decide) rfl⟩

/-- C7: `NewConnectorFromConfig` is exactly the composition of
`LoadConfig` with `NewConnector` on the loaded url, username, api_key and
db fields: a loader error is returned unchanged, otherwise the result is
exactly that of `NewConnector` on the loaded values. -/
theorem newConnectorFromConfig_is_composition
    (rd : String → Except GoError String)
    (unmarshal : String → Except GoError Config) (dial : Dial) (srv : Server)
    (path : String) :
    NewConnectorFromConfig rd unmarshal dial srv path =
      newConnectorFromConfigSpec rd unmarshal dial srv path ∧
    (∀ e, LoadConfig rd unmarshal path = .error e →
      NewConnectorFromConfig rd unmarshal dial srv path = ([], none, some e)) ∧
    (∀ cfg, LoadConfig rd unmarshal path = .ok cfg →
      NewConnectorFromConfig rd unmarshal dial srv path =
        NewConnector dial srv cfg.URL cfg.Username cfg.APIKey cfg.DB) := by
  refine ⟨rfl, ?_, ?_⟩
  · intro e he
    simp only [NewConnectorFromConfig, he]
  · intro cfg hc
    simp only [NewConnectorFromConfig, hc]

/-- C7 witness: with a concrete loader yielding a full config, the
composed constructor agrees with `NewConnector` on the loaded values. -/
theorem newConnectorFromConfig_is_composition_witness :
    NewConnectorFromConfig rdOk umFull dialOk srv7 "config.json" =
      NewConnector dialOk srv7 "http://x" "u" "k" "d" :=
  (newConnectorFromConfig_is_composition rdOk umFull dialOk srv7
    "config.json").2.2 { URL := "http://x", Username := "u", APIKey := "k", DB := "d" } rfl
